import Mathlib

/-!
Shallow embedding of the BLE scan lifecycle and advertisement-event
classification core of `src/src/blecsan.cpp` (ESP32-Paxcounter).

Modelling conventions:
* Compile-time feature macros (`VERBOSE`, `MACFILTER`, `COUNT_ENS`,
  `BLECOUNTER`) and the build constants `BLESCANTIME` (seconds, argument of
  `esp_ble_gap_start_scanning`) and `BLESCANWINDOW` (milliseconds) are fields
  of a `BuildFlags` record, so that every build of the file is covered by one
  definition.
* The runtime configuration struct `cfg` contributes the fields read by this
  file: `cfg.enscount` and `cfg.blescantime`.
* Calls into the radio stack and the sighting sink are modelled as an emitted
  `Command` list, in program order.  `do_reset(true)` restarts the device and
  does not return, so no command is emitted after it.
* The source keeps no session-state variable; the specification-level
  `ScanSessionState` is threaded through the handler as an explicit parameter
  that no code path mutates.
* Machine integers: the two `uint16_t` casts in `register_ble_callback` are
  modelled with `% 65536`.  The double computations `t * 10 / 0.625` and
  `w / 0.625` are exact for the integer inputs involved (0.625 = 5/8 is a
  dyadic rational and the quotients are far below 2^53), so they are embedded
  as the exact rational values, with natural floor division for `w * 8 / 5`.
-/

namespace Blecsan

/-- Address kinds of `esp_ble_addr_type_t` that the source mentions. -/
inductive EspBleAddrType
  | BLE_ADDR_TYPE_PUBLIC
  | BLE_ADDR_TYPE_RANDOM
  | BLE_ADDR_TYPE_RPA_PUBLIC
  | BLE_ADDR_TYPE_RPA_RANDOM
deriving DecidableEq

/-- GAP callback events: the two cases the switch at line 129 distinguishes,
plus one constructor standing for every other member of
`esp_gap_ble_cb_event_t` (the default branch). -/
inductive EspGapBleCbEvent
  | ESP_GAP_BLE_SCAN_PARAM_SET_COMPLETE_EVT
  | ESP_GAP_BLE_SCAN_RESULT_EVT
  | ESP_GAP_BLE_OTHER_EVT
deriving DecidableEq

/-- Scan-result sub-events: the two cases tested at lines 137 and 144, plus
one constructor for every other member of `esp_gap_search_evt_t`. -/
inductive EspGapSearchEvt
  | ESP_GAP_SEARCH_INQ_RES_EVT
  | ESP_GAP_SEARCH_INQ_CMPL_EVT
  | ESP_GAP_SEARCH_OTHER_EVT
deriving DecidableEq

/-- The fields of `param->scan_rst` read by `gap_callback_handler`.
`ble_adv` is the byte sequence readable at the advertisement payload pointer;
an empty list models a pointer with no readable byte. -/
structure ScanRst where
  search_evt : EspGapSearchEvt
  bda : List Nat
  ble_addr_type : EspBleAddrType
  rssi : Int
  ble_adv : List Nat
deriving DecidableEq

/-- Compile-time configuration of `blecsan.cpp`: the feature macros and the
two numeric build constants used by this file. -/
structure BuildFlags where
  VERBOSE : Bool
  MACFILTER : Bool
  COUNT_ENS : Bool
  BLECOUNTER : Bool
  BLESCANTIME : Nat
  BLESCANWINDOW : Nat
deriving DecidableEq

/-- The runtime configuration fields of the global `cfg` read by this file. -/
structure Cfg where
  enscount : Bool
  blescantime : Nat
deriving DecidableEq

/-- The sniff-type tag passed to `mac_add`. -/
inductive SniffType
  | MAC_SNIFF_BLE
  | MAC_SNIFF_BLE_ENS
deriving DecidableEq

/-- Calls the core makes into its collaborators, in program order.
`esp_ble_gap_register_gapcb` is `esp_ble_gap_register_callback` applied to
`&gap_callback_handler`; `esp_ble_gap_register_null` is the same primitive
applied to `NULL` (the unregister form). -/
inductive Command
  | esp_ble_gap_start_scanning (duration : Nat)
  | esp_ble_gap_stop_scanning
  | esp_ble_gap_register_gapcb
  | esp_ble_gap_register_null
  | esp_ble_gap_set_scan_params (scan_interval : Nat) (scan_window : Nat)
  | mac_add (bda : List Nat) (rssi : Int) (sniff : SniffType)
  | esp_coex_prefer_bt
  | esp_coex_prefer_wifi
  | esp_bluedroid_init
  | esp_bluedroid_enable
  | esp_bluedroid_disable
  | esp_bluedroid_deinit
  | do_reset
deriving DecidableEq

/-- The session states named by the specification.  The source keeps no such
variable, so the handler below returns its state argument unchanged. -/
inductive ScanSessionState
  | Idle
  | ParamsPending
  | Scanning
  | Stopping
deriving DecidableEq

/-- The ENS magic bytes of line 121: the C literal is the three bytes
0x16 0x6f 0xfd followed by the implicit string terminator, so the needle
`strstr` searches for is exactly these three bytes. -/
def ensMagicBytes : List Nat := [0x16, 0x6f, 0xfd]

/-- Boolean prefix test on byte lists. -/
def isPrefixOfB : List Nat → List Nat → Bool
  | [], _ => true
  | _ :: _, [] => false
  | a :: as, b :: bs => (a == b) && isPrefixOfB as bs

/-- Boolean contiguous-substring test: `bytesContain needle hay` holds when
`needle` occurs as a contiguous run somewhere in `hay`. -/
def bytesContain (needle : List Nat) : List Nat → Bool
  | [] => needle.isEmpty
  | b :: hay => isPrefixOfB needle (b :: hay) || bytesContain needle hay

/-- The bytes of a buffer up to (excluding) the first zero byte: the string
that C library functions see through a `const char *` view of the buffer. -/
def cString (l : List Nat) : List Nat := l.takeWhile (fun b => b != 0)

/-- The `strstr` test of line 170: the haystack is read as a C string, so the
search covers only the payload bytes before the first zero byte.  (The needle
`ensMagicBytes` contains no zero byte.) -/
def strstrFound (hay : List Nat) (needle : List Nat) : Bool :=
  bytesContain needle (cString hay)

/-- The address classes excluded by the MACFILTER test at lines 156 and 157. -/
def isRandomAddr : EspBleAddrType → Bool
  | .BLE_ADDR_TYPE_RANDOM => true
  | .BLE_ADDR_TYPE_RPA_RANDOM => true
  | _ => false

/-- The compile-time-guarded address filter of lines 155 to 163: the event is
dropped exactly when the MACFILTER build flag is set and the address kind is
random or resolvable-private-random. -/
def addressFiltered (fl : BuildFlags) (p : ScanRst) : Bool :=
  fl.MACFILTER && isRandomAddr p.ble_addr_type

/-- Lines 167 to 178: the commands issued for an inquiry result that passed
the address filter.  With COUNT_ENS compiled in, `mac_add` is called only
inside `if (cfg.enscount)`; with COUNT_ENS compiled out, `mac_add` is called
unconditionally with `MAC_SNIFF_BLE`. -/
def resultCommands (fl : BuildFlags) (cfg : Cfg) (p : ScanRst) : List Command :=
  if fl.COUNT_ENS then
    if cfg.enscount then
      if strstrFound p.ble_adv ensMagicBytes then
        [.mac_add p.bda p.rssi .MAC_SNIFF_BLE_ENS]
      else
        [.mac_add p.bda p.rssi .MAC_SNIFF_BLE]
    else []
  else
    [.mac_add p.bda p.rssi .MAC_SNIFF_BLE]

/-- Shallow embedding of `gap_callback_handler` (lines 113 to 216).
With VERBOSE compiled in, line 125 dereferences `p->scan_rst.ble_adv` before
the switch, for every event kind; that read is modelled as requiring a
readable first byte, the whole invocation being undefined (`none`) when there
is none.  On every defined path the session state is returned unchanged,
because the source mutates no session state. -/
def gap_callback_handler (fl : BuildFlags) (cfg : Cfg)
    (event : EspGapBleCbEvent) (p : ScanRst) (s : ScanSessionState) :
    Option (ScanSessionState × List Command) :=
  if fl.VERBOSE && p.ble_adv.isEmpty then none
  else
    match event with
    | .ESP_GAP_BLE_SCAN_PARAM_SET_COMPLETE_EVT =>
        some (s, [.esp_ble_gap_start_scanning fl.BLESCANTIME])
    | .ESP_GAP_BLE_SCAN_RESULT_EVT =>
        match p.search_evt with
        | .ESP_GAP_SEARCH_INQ_CMPL_EVT =>
            some (s, [.esp_ble_gap_start_scanning fl.BLESCANTIME])
        | .ESP_GAP_SEARCH_INQ_RES_EVT =>
            if addressFiltered fl p then some (s, [])
            else some (s, resultCommands fl cfg p)
        | .ESP_GAP_SEARCH_OTHER_EVT => some (s, [])
    | .ESP_GAP_BLE_OTHER_EVT => some (s, [])

/-- Line 254 and 255: `(uint16_t)(cfg.blescantime * 10 / 0.625)`.  For a
natural `t` the double computation is exact and equals `t * 16`; the
`uint16_t` cast reduces modulo 2^16. -/
def scan_interval_ticks (blescantime : Nat) : Nat :=
  blescantime * 16 % 65536

/-- Line 256 and 257: `(uint16_t)(BLESCANWINDOW / 0.625)`.  The exact value
is `w * 8 / 5`; the cast truncates the fractional part and reduces modulo
2^16.  The shipped default `w = 80` gives exactly 128 ticks. -/
def scan_window_ticks (w : Nat) : Nat :=
  w * 8 / 5 % 65536

/-- The `esp_err_t` success code. -/
def ESP_OK : Nat := 0

/-- Status codes returned by the radio primitives invoked during registration
and unregistration.  The source calls each primitive as a statement and never
inspects these values. -/
structure GatewayEnv where
  register_cb_status : Nat
  set_scan_params_status : Nat
  stop_scanning_status : Nat
deriving DecidableEq

/-- Shallow embedding of `register_ble_callback` (lines 218 to 268): the
returned `esp_err_t` and the commands issued, in program order.  Both
branches fall through to `return ESP_OK` at line 266. -/
def register_ble_callback (unregister : Bool) (fl : BuildFlags) (cfg : Cfg)
    (_env : GatewayEnv) : Nat × List Command :=
  if unregister then
    (ESP_OK, [.esp_ble_gap_stop_scanning, .esp_ble_gap_register_null])
  else
    (ESP_OK,
     [.esp_ble_gap_register_gapcb,
      .esp_ble_gap_set_scan_params (scan_interval_ticks cfg.blescantime)
        (scan_window_ticks fl.BLESCANWINDOW)])

/-- Shallow embedding of `start_BLEscan` (lines 270 to 286).  `btStartOk`
models the Bool returned by the external `btStart()`; on failure the function
calls `do_reset(true)`, which restarts the device and does not return.  With
BLECOUNTER compiled out the whole body is empty. -/
def start_BLEscan (fl : BuildFlags) (cfg : Cfg) (env : GatewayEnv)
    (btStartOk : Bool) : List Command :=
  if fl.BLECOUNTER then
    if btStartOk then
      .esp_coex_prefer_bt :: .esp_bluedroid_init :: .esp_bluedroid_enable ::
        (register_ble_callback false fl cfg env).2
    else [.do_reset]
  else []

/-- Shallow embedding of `stop_BLEscan` (lines 288 to 303).  `btStopOk`
models the Bool returned by the external `btStop()`; on failure the function
calls `do_reset(true)`, which does not return, so the trailing
`esp_coex_preference_set` is reached only on success.  With BLECOUNTER
compiled out the whole body is empty.  The function takes no session state:
it runs the same sequence whatever state the session is in. -/
def stop_BLEscan (fl : BuildFlags) (cfg : Cfg) (env : GatewayEnv)
    (btStopOk : Bool) : List Command :=
  if fl.BLECOUNTER then
    (register_ble_callback true fl cfg env).2 ++
      [.esp_bluedroid_disable, .esp_bluedroid_deinit] ++
      (if btStopOk then [.esp_coex_prefer_wifi] else [.do_reset])
  else []

/-- Spec-side status vocabulary of the RegistrationGateway contract. -/
inductive Status
  | Ok
  | RadioInitFailed
  | RadioStopFailed
deriving DecidableEq

/-- Modelled from the spec: the `Status` value the specification assigns to a
`start` invocation.  The source function returns `void`; the branch that ran
(controller start succeeded or failed) determines the spec-level outcome. -/
def spec_startStatus (fl : BuildFlags) (btStartOk : Bool) : Status :=
  if fl.BLECOUNTER && !btStartOk then .RadioInitFailed else .Ok

/-- Modelled from the spec: the `Status` value the specification assigns to a
`stop` invocation, by the same branch correspondence. -/
def spec_stopStatus (fl : BuildFlags) (btStopOk : Bool) : Status :=
  if fl.BLECOUNTER && !btStopOk then .RadioStopFailed else .Ok

/-- Modelled from the spec: the signature search the specification describes,
a raw byte-scan for the signature as a contiguous substring anywhere in the
payload, over the whole payload length. -/
def spec_signatureMatched (payload : List Nat) : Bool :=
  bytesContain ensMagicBytes payload

/-- Sample build: every feature macro off, BLECOUNTER on, the shipped
defaults BLESCANTIME = 0 and BLESCANWINDOW = 80. -/
def fl_plain : BuildFlags := ⟨false, false, false, true, 0, 80⟩

/-- Sample build with COUNT_ENS compiled in. -/
def fl_ens : BuildFlags := ⟨false, false, true, true, 0, 80⟩

/-- Sample build with VERBOSE compiled in. -/
def fl_verbose : BuildFlags := ⟨true, false, false, true, 0, 80⟩

/-- Sample runtime configuration with ENS counting enabled. -/
def cfg0 : Cfg := ⟨true, 0⟩

/-- Sample runtime configuration with ENS counting disabled. -/
def cfg_no_ens : Cfg := ⟨false, 0⟩

/-- Sample primitive statuses (all success). -/
def env0 : GatewayEnv := ⟨0, 0, 0⟩

/-- Sample primitive statuses (all failure codes). -/
def env_fail : GatewayEnv := ⟨1, 1, 1⟩

/-- Sample inquiry result from a public address, payload without zero bytes. -/
def p_pub : ScanRst :=
  ⟨.ESP_GAP_SEARCH_INQ_RES_EVT, [1, 2, 3, 4, 5, 6],
   .BLE_ADDR_TYPE_PUBLIC, -60, [2, 1, 6]⟩

/-- Sample inquiry result whose payload contains the ENS bytes only after an
embedded zero byte. -/
def p_nul : ScanRst :=
  ⟨.ESP_GAP_SEARCH_INQ_RES_EVT, [1, 2, 3, 4, 5, 6],
   .BLE_ADDR_TYPE_PUBLIC, -60, [0, 0x16, 0x6f, 0xfd]⟩

/-- Sample inquiry result carrying the ENS bytes in the clear (the scenario
payload of the specification). -/
def p_ens : ScanRst :=
  ⟨.ESP_GAP_SEARCH_INQ_RES_EVT, [1, 2, 3, 4, 5, 6],
   .BLE_ADDR_TYPE_PUBLIC, -60, [0x02, 0x01, 0x06, 0x16, 0x6f, 0xfd]⟩

/-- Sample inquiry result from a random address. -/
def p_rand : ScanRst :=
  ⟨.ESP_GAP_SEARCH_INQ_RES_EVT, [1, 2, 3, 4, 5, 6],
   .BLE_ADDR_TYPE_RANDOM, -60, [2, 1, 6]⟩

/-- Sample build with MACFILTER compiled in. -/
def fl_filter : BuildFlags := ⟨false, true, false, true, 0, 80⟩

/-- Sample event record whose payload pointer has no readable byte. -/
def p_empty : ScanRst :=
  ⟨.ESP_GAP_SEARCH_OTHER_EVT, [0, 0, 0, 0, 0, 0],
   .BLE_ADDR_TYPE_PUBLIC, 0, []⟩

/-- When the VERBOSE payload read succeeds (VERBOSE off, or at least one
readable payload byte), the guard of the handler is false. -/
theorem readOk_false {fl : BuildFlags} {p : ScanRst}
    (h : fl.VERBOSE = true → p.ble_adv ≠ []) :
    (fl.VERBOSE && p.ble_adv.isEmpty) = false := by
  cases hV : fl.VERBOSE with
  | false => rfl
  | true =>
    cases hA : p.ble_adv with
    | nil => exact absurd hA (h hV)
    | cons a l => rfl

/-- A buffer without zero bytes is its own C string. -/
theorem cString_eq_self {l : List Nat} (h : ∀ b ∈ l, b ≠ 0) :
    cString l = l := by
  induction l with
  | nil => rfl
  | cons a t ih =>
    have ha : (a != 0) = true := by
      simpa using h a (List.mem_cons_self a t)
    have ht : cString t = t := ih fun b hb => h b (List.mem_cons_of_mem a hb)
    simp [cString, List.takeWhile, ha] at ht ⊢
    exact ht

/-- C1: while the session is Scanning, an InquiryComplete sub-event makes the
handler issue exactly one startScanning command (with the BLESCANTIME
duration), the state stays Scanning, and no sighting is emitted. -/
theorem c1_inquiry_complete_restart (fl : BuildFlags) (cfg : Cfg) (p : ScanRst)
    (hread : fl.VERBOSE = true → p.ble_adv ≠ [])
    (hevt : p.search_evt = .ESP_GAP_SEARCH_INQ_CMPL_EVT) :
    gap_callback_handler fl cfg .ESP_GAP_BLE_SCAN_RESULT_EVT p .Scanning
      = some (.Scanning, [.esp_ble_gap_start_scanning fl.BLESCANTIME]) := by
  unfold gap_callback_handler
  rw [readOk_false hread, hevt]
  rfl

/-- C1 witness: a concrete InquiryComplete event in the Scanning state. -/
theorem c1_inquiry_complete_restart_witness :
    gap_callback_handler fl_plain cfg0 .ESP_GAP_BLE_SCAN_RESULT_EVT
        ⟨.ESP_GAP_SEARCH_INQ_CMPL_EVT, [1, 2, 3, 4, 5, 6],
         .BLE_ADDR_TYPE_PUBLIC, -60, []⟩ .Scanning
      = some (.Scanning, [.esp_ble_gap_start_scanning fl_plain.BLESCANTIME]) :=
  c1_inquiry_complete_restart fl_plain cfg0 _ (by decide) rfl

/-- C5 counterexample: on ParamSetComplete the handler issues exactly one
startScanning, but its duration argument is the BLESCANTIME build constant
(0 at the shipped default), not the configured scan window (80 ms, 128 native
ticks): at the default build the two differ. -/
theorem c5_duration_is_not_window :
    gap_callback_handler fl_plain cfg0 .ESP_GAP_BLE_SCAN_PARAM_SET_COMPLETE_EVT
        p_pub .ParamsPending
      = some (.ParamsPending, [.esp_ble_gap_start_scanning 0])
    ∧ fl_plain.BLESCANTIME = 0
    ∧ fl_plain.BLESCANWINDOW = 80
    ∧ scan_window_ticks fl_plain.BLESCANWINDOW = 128
    ∧ fl_plain.BLESCANTIME ≠ fl_plain.BLESCANWINDOW
    ∧ fl_plain.BLESCANTIME ≠ scan_window_ticks fl_plain.BLESCANWINDOW := by
  refine ⟨rfl, rfl, rfl, rfl, ?_, ?_⟩ <;> decide

/-- C5 (amended): every ParamSetComplete event makes the handler issue
exactly one startScanning command before any other radio command, and its
duration argument is the BLESCANTIME build constant (the configured
scan-cycle time in seconds), not the scan window. -/
theorem c5_param_set_complete_restart (fl : BuildFlags) (cfg : Cfg)
    (p : ScanRst) (s : ScanSessionState)
    (hread : fl.VERBOSE = true → p.ble_adv ≠ []) :
    gap_callback_handler fl cfg .ESP_GAP_BLE_SCAN_PARAM_SET_COMPLETE_EVT p s
      = some (s, [.esp_ble_gap_start_scanning fl.BLESCANTIME]) := by
  unfold gap_callback_handler
  rw [readOk_false hread]
  rfl

/-- C5 witness: a concrete ParamSetComplete event. -/
theorem c5_param_set_complete_restart_witness :
    gap_callback_handler fl_ens cfg0 .ESP_GAP_BLE_SCAN_PARAM_SET_COMPLETE_EVT
        p_ens .ParamsPending
      = some (.ParamsPending, [.esp_ble_gap_start_scanning fl_ens.BLESCANTIME]) :=
  c5_param_set_complete_restart fl_ens cfg0 p_ens .ParamsPending (by decide)

/-- C10: with VERBOSE compiled in the handler dereferences the payload
pointer before dispatching on the event kind, so for every event kind,
including ParamSetComplete, an event without a readable payload byte makes
the invocation undefined; without VERBOSE the handler is total. -/
theorem c10_verbose_reads_payload_first (fl : BuildFlags) (cfg : Cfg)
    (event : EspGapBleCbEvent) (p : ScanRst) (s : ScanSessionState) :
    (fl.VERBOSE = true → p.ble_adv = [] →
      gap_callback_handler fl cfg event p s = none)
    ∧ (fl.VERBOSE = false →
      (gap_callback_handler fl cfg event p s).isSome = true) := by
  constructor
  · intro hV hA
    simp [gap_callback_handler, hV, hA]
  · intro hV
    unfold gap_callback_handler
    rw [hV]
    simp only [Bool.false_and, Bool.false_eq_true, if_false]
    cases event with
    | ESP_GAP_BLE_SCAN_PARAM_SET_COMPLETE_EVT => rfl
    | ESP_GAP_BLE_OTHER_EVT => rfl
    | ESP_GAP_BLE_SCAN_RESULT_EVT =>
      cases p.search_evt with
      | ESP_GAP_SEARCH_INQ_RES_EVT =>
        by_cases hf : addressFiltered fl p <;> simp [hf]
      | ESP_GAP_SEARCH_INQ_CMPL_EVT => rfl
      | ESP_GAP_SEARCH_OTHER_EVT => rfl

/-- C10 witness: a ParamSetComplete event with an unreadable payload pointer
under a VERBOSE build makes the handler undefined. -/
theorem c10_verbose_reads_payload_first_witness :
    gap_callback_handler fl_verbose cfg0
        .ESP_GAP_BLE_SCAN_PARAM_SET_COMPLETE_EVT p_empty .ParamsPending = none :=
  (c10_verbose_reads_payload_first fl_verbose cfg0 _ p_empty _).1 rfl rfl

/-- C2 counterexample: the search is not a raw byte-scan over the whole
payload.  A payload carrying the signature after an embedded zero byte is a
raw-scan match (the spec-words search succeeds), yet the handler classifies
it as a plain Generic sighting, because `strstr` stops at the zero byte. -/
theorem c2_not_raw_byte_scan :
    spec_signatureMatched p_nul.ble_adv = true
    ∧ addressFiltered fl_ens p_nul = false
    ∧ gap_callback_handler fl_ens cfg0 .ESP_GAP_BLE_SCAN_RESULT_EVT p_nul
        .Scanning
      = some (.Scanning, [.mac_add p_nul.bda p_nul.rssi .MAC_SNIFF_BLE]) := by
  refine ⟨?_, ?_, ?_⟩ <;> decide

/-- C2 (amended): with ENS counting compiled in and enabled, a filter-passing
Result event is classified as signature-matched exactly when the signature
bytes occur as a contiguous substring of the payload prefix up to the first
zero byte (C strstr semantics); for payloads without zero bytes this agrees
with the raw whole-payload byte-scan the spec describes. -/
theorem c2_strstr_classification (fl : BuildFlags) (cfg : Cfg) (p : ScanRst)
    (s : ScanSessionState)
    (hread : fl.VERBOSE = true → p.ble_adv ≠ [])
    (hevt : p.search_evt = .ESP_GAP_SEARCH_INQ_RES_EVT)
    (hfilt : addressFiltered fl p = false)
    (hens : fl.COUNT_ENS = true) (hcnt : cfg.enscount = true) :
    gap_callback_handler fl cfg .ESP_GAP_BLE_SCAN_RESULT_EVT p s
      = some (s, [.mac_add p.bda p.rssi
          (if strstrFound p.ble_adv ensMagicBytes then .MAC_SNIFF_BLE_ENS
           else .MAC_SNIFF_BLE)])
    ∧ strstrFound p.ble_adv ensMagicBytes
        = bytesContain ensMagicBytes (cString p.ble_adv)
    ∧ ((∀ b ∈ p.ble_adv, b ≠ 0) →
        strstrFound p.ble_adv ensMagicBytes = spec_signatureMatched p.ble_adv) := by
  refine ⟨?_, rfl, ?_⟩
  · unfold gap_callback_handler
    rw [readOk_false hread, hevt]
    simp only [hfilt, Bool.false_eq_true, if_false, resultCommands, hens,
      hcnt, if_true]
    by_cases hs : strstrFound p.ble_adv ensMagicBytes = true <;> simp [hs]
  · intro h
    unfold strstrFound spec_signatureMatched
    rw [cString_eq_self h]

/-- C2 witness: the scenario payload of the specification, carrying the ENS
bytes with no embedded zero byte, is classified as signature-matched. -/
theorem c2_strstr_classification_witness :
    gap_callback_handler fl_ens cfg0 .ESP_GAP_BLE_SCAN_RESULT_EVT p_ens
        .Scanning
      = some (.Scanning, [.mac_add p_ens.bda p_ens.rssi
          (if strstrFound p_ens.ble_adv ensMagicBytes then .MAC_SNIFF_BLE_ENS
           else .MAC_SNIFF_BLE)]) :=
  (c2_strstr_classification fl_ens cfg0 p_ens .Scanning (by decide) rfl
    (by decide) rfl rfl).1

/-- C3 counterexample: with ENS counting compiled in but disabled at runtime,
a Result event that passes the address filter produces no sighting at all, so
disabling signature matching can suppress emission. -/
theorem c3_ens_disabled_suppresses :
    addressFiltered fl_ens p_pub = false
    ∧ gap_callback_handler fl_ens cfg_no_ens .ESP_GAP_BLE_SCAN_RESULT_EVT
        p_pub .Scanning
      = some (.Scanning, []) := by
  exact ⟨by decide, by decide⟩

/-- C3 (amended): a filter-passing Result event is emitted as a Generic
sighting when ENS counting is compiled out; but when ENS counting is compiled
in and disabled at runtime, no sighting is emitted at all. -/
theorem c3_generic_emission (fl : BuildFlags) (cfg : Cfg) (p : ScanRst)
    (s : ScanSessionState)
    (hread : fl.VERBOSE = true → p.ble_adv ≠ [])
    (hevt : p.search_evt = .ESP_GAP_SEARCH_INQ_RES_EVT)
    (hfilt : addressFiltered fl p = false) :
    (fl.COUNT_ENS = false →
      gap_callback_handler fl cfg .ESP_GAP_BLE_SCAN_RESULT_EVT p s
        = some (s, [.mac_add p.bda p.rssi .MAC_SNIFF_BLE]))
    ∧ (fl.COUNT_ENS = true → cfg.enscount = false →
      gap_callback_handler fl cfg .ESP_GAP_BLE_SCAN_RESULT_EVT p s
        = some (s, [])) := by
  constructor
  · intro hens
    unfold gap_callback_handler
    rw [readOk_false hread, hevt]
    simp [hfilt, resultCommands, hens]
  · intro hens hcnt
    unfold gap_callback_handler
    rw [readOk_false hread, hevt]
    simp [hfilt, resultCommands, hens, hcnt]

/-- C3 witness: with ENS counting compiled out, a concrete public-address
Result event is emitted as a Generic sighting. -/
theorem c3_generic_emission_witness :
    gap_callback_handler fl_plain cfg0 .ESP_GAP_BLE_SCAN_RESULT_EVT p_pub
        .Scanning
      = some (.Scanning, [.mac_add p_pub.bda p_pub.rssi .MAC_SNIFF_BLE]) :=
  (c3_generic_emission fl_plain cfg0 p_pub .Scanning (by decide) rfl
    (by decide)).1 rfl

/-- C4: a Result event is dropped by the address filter exactly when the
filter is compiled in and the address kind is Random or
ResolvablePrivateRandom; for Public and ResolvablePrivatePublic addresses the
handler behaves identically whatever the filter flag is; and a filtered event
produces no sighting. -/
theorem c4_address_filter_policy (fl : BuildFlags) (cfg : Cfg) (p : ScanRst)
    (s : ScanSessionState) :
    (addressFiltered fl p = true ↔
      fl.MACFILTER = true ∧
        (p.ble_addr_type = .BLE_ADDR_TYPE_RANDOM ∨
         p.ble_addr_type = .BLE_ADDR_TYPE_RPA_RANDOM))
    ∧ ((p.ble_addr_type = .BLE_ADDR_TYPE_PUBLIC ∨
        p.ble_addr_type = .BLE_ADDR_TYPE_RPA_PUBLIC) →
        ∀ m : Bool,
          gap_callback_handler { fl with MACFILTER := m } cfg
              .ESP_GAP_BLE_SCAN_RESULT_EVT p s
            = gap_callback_handler fl cfg .ESP_GAP_BLE_SCAN_RESULT_EVT p s)
    ∧ (addressFiltered fl p = true →
        p.search_evt = .ESP_GAP_SEARCH_INQ_RES_EVT →
        (fl.VERBOSE = true → p.ble_adv ≠ []) →
        gap_callback_handler fl cfg .ESP_GAP_BLE_SCAN_RESULT_EVT p s
          = some (s, [])) := by
  obtain ⟨v, m0, ce, bc, t, w⟩ := fl
  obtain ⟨se, bda, a0, r0, adv⟩ := p
  refine ⟨?_, ?_, ?_⟩
  · cases m0 <;> cases a0 <;> simp [addressFiltered, isRandomAddr]
  · rintro (h | h) m1 <;> subst h <;> cases se <;>
      simp [gap_callback_handler, addressFiltered, isRandomAddr, resultCommands]
  · intro hf hevt hread
    subst hevt
    unfold gap_callback_handler
    rw [readOk_false hread]
    simp [hf]

/-- C4 witness: with the filter compiled in, a concrete random-address Result
event is dropped. -/
theorem c4_address_filter_policy_witness :
    gap_callback_handler fl_filter cfg0 .ESP_GAP_BLE_SCAN_RESULT_EVT p_rand
        .Scanning
      = some (.Scanning, []) :=
  (c4_address_filter_policy fl_filter cfg0 p_rand .Scanning).2.2 (by decide)
    rfl (by decide)

/-- C6: start reaches only the Ok and RadioInitFailed outcomes; the fatal
reset is issued exactly on the RadioInitFailed path of start and the
RadioStopFailed path of stop, and neither the event handler nor the
registration function ever issues a reset. -/
theorem c6_fatal_reset_paths (fl : BuildFlags) (cfg : Cfg) (env : GatewayEnv)
    (bStart bStop u : Bool) (event : EspGapBleCbEvent) (p : ScanRst)
    (s : ScanSessionState) :
    (spec_startStatus fl bStart = .Ok ∨
      spec_startStatus fl bStart = .RadioInitFailed)
    ∧ (Command.do_reset ∈ start_BLEscan fl cfg env bStart ↔
        spec_startStatus fl bStart = .RadioInitFailed)
    ∧ (Command.do_reset ∈ stop_BLEscan fl cfg env bStop ↔
        spec_stopStatus fl bStop = .RadioStopFailed)
    ∧ Command.do_reset ∉ ((gap_callback_handler fl cfg event p s).getD
        (s, [])).2
    ∧ Command.do_reset ∉ (register_ble_callback u fl cfg env).2 := by
  obtain ⟨v, m0, ce, bc, t, w⟩ := fl
  refine ⟨?_, ?_, ?_, ?_, ?_⟩
  · cases bc <;> cases bStart <;> simp [spec_startStatus]
  · cases bc <;> cases bStart <;>
      simp [start_BLEscan, spec_startStatus, register_ble_callback]
  · cases bc <;> cases bStop <;>
      simp [stop_BLEscan, spec_stopStatus, register_ble_callback]
  · obtain ⟨se, bda, a0, r0, adv⟩ := p
    by_cases hg : (v && adv.isEmpty) = true
    · simp [gap_callback_handler, hg]
    · cases event <;> cases se <;>
        simp [gap_callback_handler, hg, addressFiltered, isRandomAddr,
          resultCommands] <;>
        split_ifs <;> simp
  · cases u <;> simp [register_ble_callback]

/-- C7 counterexample: at the shipped defaults (cfg.blescantime = 0,
BLESCANWINDOW = 80) the parameters submitted by register_ble_callback have
native window 128 ticks and native interval 0 ticks, so window ≤ interval
fails. -/
theorem c7_window_exceeds_interval_at_default :
    (register_ble_callback false fl_plain cfg0 env0).2
      = [.esp_ble_gap_register_gapcb,
         .esp_ble_gap_set_scan_params (scan_interval_ticks cfg0.blescantime)
           (scan_window_ticks fl_plain.BLESCANWINDOW)]
    ∧ scan_interval_ticks cfg0.blescantime = 0
    ∧ scan_window_ticks fl_plain.BLESCANWINDOW = 128
    ∧ ¬ scan_window_ticks fl_plain.BLESCANWINDOW ≤
        scan_interval_ticks cfg0.blescantime := by
  exact ⟨rfl, rfl, rfl, by decide⟩

/-- C7 (amended): for configured times below the 16-bit overflow bound the
conversions are exact (interval = 16 ticks per configured second, window =
128 ticks for the default 80 ms), and window ≤ interval holds exactly when
the configured time is at least 8. -/
theorem c7_tick_conversion (tsec : Nat) (ht : tsec < 4096) :
    scan_interval_ticks tsec = tsec * 16
    ∧ scan_window_ticks 80 = 128
    ∧ (scan_window_ticks 80 ≤ scan_interval_ticks tsec ↔ 8 ≤ tsec) := by
  refine ⟨?_, rfl, ?_⟩
  · unfold scan_interval_ticks
    omega
  · unfold scan_interval_ticks scan_window_ticks
    omega

/-- C7 witness: the conversion facts at the smallest configured time with
window ≤ interval. -/
theorem c7_tick_conversion_witness :
    8 < 4096
    ∧ (scan_interval_ticks 8 = 8 * 16
      ∧ scan_window_ticks 80 = 128
      ∧ (scan_window_ticks 80 ≤ scan_interval_ticks 8 ↔ 8 ≤ 8)) :=
  ⟨by decide, c7_tick_conversion 8 (by decide)⟩

/-- C8 counterexample: stop is not a no-op on an idle session: it takes no
session state at all and always issues the shutdown commands, and when the
controller stop primitive fails it issues the fatal reset. -/
theorem c8_stop_not_noop :
    stop_BLEscan fl_plain cfg0 env0 true ≠ []
    ∧ Command.esp_ble_gap_stop_scanning ∈ stop_BLEscan fl_plain cfg0 env0 true
    ∧ Command.do_reset ∈ stop_BLEscan fl_plain cfg0 env0 false := by
  exact ⟨by decide, by decide, by decide⟩

/-- C8 (amended): with the BLE counter feature compiled in, stop runs the
same full shutdown sequence whatever the session state is, and issues the
fatal reset exactly when the controller stop primitive fails; with the
feature compiled out it is a no-op. -/
theorem c8_stop_unconditional (fl : BuildFlags) (cfg : Cfg) (env : GatewayEnv)
    (b : Bool) (hbc : fl.BLECOUNTER = true) :
    stop_BLEscan fl cfg env b
      = [.esp_ble_gap_stop_scanning, .esp_ble_gap_register_null,
         .esp_bluedroid_disable, .esp_bluedroid_deinit]
        ++ (if b then [.esp_coex_prefer_wifi] else [.do_reset])
    ∧ stop_BLEscan fl cfg env b ≠ []
    ∧ (Command.do_reset ∈ stop_BLEscan fl cfg env b ↔ b = false)
    ∧ stop_BLEscan { fl with BLECOUNTER := false } cfg env b = [] := by
  refine ⟨?_, ?_, ?_, ?_⟩ <;> cases b <;>
    simp [stop_BLEscan, register_ble_callback, hbc]

/-- C8 witness: concrete shutdown runs. -/
theorem c8_stop_unconditional_witness :
    stop_BLEscan fl_plain cfg0 env0 false ≠ []
    ∧ (Command.do_reset ∈ stop_BLEscan fl_plain cfg0 env0 false ↔
        false = false) :=
  ⟨(c8_stop_unconditional fl_plain cfg0 env0 false rfl).2.1,
   (c8_stop_unconditional fl_plain cfg0 env0 false rfl).2.2.1⟩

/-- C9: register_ble_callback returns ESP_OK on every call, in both modes,
and its whole observable behaviour is independent of the status codes the
radio primitives return. -/
theorem c9_register_returns_esp_ok (u : Bool) (fl : BuildFlags) (cfg : Cfg)
    (env env2 : GatewayEnv) :
    (register_ble_callback u fl cfg env).1 = ESP_OK
    ∧ register_ble_callback u fl cfg env
        = register_ble_callback u fl cfg env2 := by
  cases u <;> exact ⟨rfl, rfl⟩

end Blecsan
